import Mathlib

/-!
Verification of the biryaniclub7 food-ordering application core
(models.py, utils.py, routes.py).

Currency amounts (Python floats holding rupee values) are modelled as
rationals; integer columns as integers; datetimes as integer timestamps
ordered like the source's datetime comparisons.  Optional (nullable)
columns are `Option`; Python truthiness of an optional number (`if x:`
is false for both `None` and `0`) is modelled exactly where the source
relies on it.
-/

namespace BiryaniClub

/-- Discount kind of a promotion (`Promotion.discount_type` column:
the strings "percentage" and "fixed"). -/
inductive DiscountType
  | percentage
  | fixed
deriving DecidableEq

/-- Promotion record (models.py class Promotion), restricted to the columns
read by validity and discount computation. -/
structure Promotion where
  discount_type : DiscountType
  discount_value : ℚ
  min_order_amount : ℚ
  max_discount : Option ℚ
  usage_limit : Option ℤ
  used_count : ℤ
  is_active : Bool
  expires_at : Option ℤ
deriving DecidableEq

/-- models.py `Promotion.is_expired`: `if self.expires_at: return get_ist_now() >
self.expires_at; return False`.  A datetime object is always truthy, so only
`None` skips the comparison. -/
def Promotion.is_expired (p : Promotion) (now : ℤ) : Bool :=
  match p.expires_at with
  | some e => decide (e < now)
  | none => false

/-- models.py `Promotion.is_usage_exceeded`: `if self.usage_limit: return
self.used_count >= self.usage_limit; return False`.  Python truthiness: a
usage_limit of `None` or `0` skips the check. -/
def Promotion.is_usage_exceeded (p : Promotion) : Bool :=
  match p.usage_limit with
  | some l => if l = 0 then false else decide (l ≤ p.used_count)
  | none => false

/-- models.py `Promotion.is_valid`: active, not expired, usage not exceeded. -/
def Promotion.is_valid (p : Promotion) (now : ℤ) : Bool :=
  p.is_active && !(p.is_expired now) && !p.is_usage_exceeded

/-- models.py `Promotion.calculate_discount`: 0 when invalid or below the
minimum order amount; percentage kind multiplies and clamps by
`max_discount` only when that field is truthy (not `None`, not `0`);
fixed kind is `min(value, subtotal)`. -/
def Promotion.calculate_discount (p : Promotion) (now : ℤ) (subtotal : ℚ) : ℚ :=
  if p.is_valid now = false ∨ subtotal < p.min_order_amount then 0
  else
    match p.discount_type with
    | DiscountType.percentage =>
        let discount := subtotal * (p.discount_value / 100)
        match p.max_discount with
        | some m => if m = 0 then discount else min discount m
        | none => discount
    | DiscountType.fixed => min p.discount_value subtotal

/-- utils.py `calculate_delivery_charges`: tiered flat delivery fee. -/
def calculate_delivery_charges (subtotal : ℚ) : ℚ :=
  if 200 ≤ subtotal then 0
  else if 150 ≤ subtotal then 15
  else if 100 ≤ subtotal then 25
  else 25

/-- Loyalty tier names (models.py `User.loyalty_tier` column values). -/
inductive Tier
  | bronze
  | silver
  | gold
  | platinum
deriving DecidableEq

/-- One row of the tier table inside models.py `User.get_loyalty_tier_info`
(`max_points = none` models `float('inf')` for platinum). -/
structure TierInfo where
  min_points : ℤ
  max_points : Option ℤ
  conversion_rate : ℤ
deriving DecidableEq

/-- The `tiers` dict of models.py `User.get_loyalty_tier_info`, in its
insertion (= iteration) order. -/
def tierTable : List (Tier × TierInfo) :=
  [(Tier.bronze, ⟨0, some 999, 5⟩),
   (Tier.silver, ⟨1000, some 2499, 4⟩),
   (Tier.gold, ⟨2500, some 4999, 3⟩),
   (Tier.platinum, ⟨5000, none, 2⟩)]

/-- The membership test `info['min_points'] <= self.loyalty_points <=
info['max_points']` of the tier scan. -/
def inBand (points : ℤ) (info : TierInfo) : Bool :=
  decide (info.min_points ≤ points) &&
    match info.max_points with
    | some m => decide (points ≤ m)
    | none => true

/-- The scan of models.py `User.get_loyalty_tier_info`: first matching band
in table order, defaulting to bronze when none matches. -/
def currentTier (points : ℤ) : Tier :=
  match tierTable.find? fun ti => inBand points ti.2 with
  | some ti => ti.1
  | none => Tier.bronze

/-- Lookup `tiers[current_tier]` (every tier is present in the table; the
default is never reached). -/
def tierInfoOf (t : Tier) : TierInfo :=
  match tierTable.find? fun ti => decide (ti.1 = t) with
  | some ti => ti.2
  | none => ⟨0, some 999, 5⟩

/-- User record (models.py class User), restricted to the loyalty columns. -/
structure User where
  loyalty_points : ℤ
  loyalty_tier : Tier
deriving DecidableEq

/-- models.py `User.get_loyalty_tier_info`: recomputes the tier from the
point balance, overwrites the stored label when it differs, and returns
the tier info row.  The returned first component is the (possibly
updated) user. -/
def User.get_loyalty_tier_info (u : User) : User × TierInfo :=
  let ct := currentTier u.loyalty_points
  let u2 := if u.loyalty_tier ≠ ct then { u with loyalty_tier := ct } else u
  (u2, tierInfoOf ct)

/-- Failure cases of models.py `User.redeem_points` (the returned message
strings "Minimum redemption is 100 points" and "Insufficient points"). -/
inductive RedeemError
  | BelowMinimum
  | InsufficientPoints
deriving DecidableEq

/-- Result of models.py `User.redeem_points`: the mutated user together
with the redeemed amount, or the failure message. -/
inductive RedeemResult
  | failure (e : RedeemError)
  | success (u : User) (amount : ℤ)
deriving DecidableEq

/-- models.py `User.redeem_points`: the below-minimum check runs first,
then the balance check; conversion uses Python floor division on the
rate of the tier read (and stored) before the deduction. -/
def User.redeem_points (u : User) (points_to_redeem : ℤ) : RedeemResult :=
  if points_to_redeem < 100 then RedeemResult.failure RedeemError.BelowMinimum
  else if u.loyalty_points < points_to_redeem then
    RedeemResult.failure RedeemError.InsufficientPoints
  else
    let r := u.get_loyalty_tier_info
    let amount := Int.fdiv points_to_redeem r.2.conversion_rate
    RedeemResult.success { r.1 with loyalty_points := r.1.loyalty_points - points_to_redeem }
      amount

/-- One cart line as rendered by utils.py `get_cart_items`: the menu item's
current price and the chosen quantity; `total = quantity * price`
(models.py `CartItem.total`). -/
structure CartEntry where
  price : ℚ
  quantity : ℤ
deriving DecidableEq

/-- routes.py process_checkout line `subtotal = sum(item['total'] for item in
cart_items)`. -/
def cartTotal (cart : List CartEntry) : ℚ :=
  (cart.map fun c => (c.quantity : ℚ) * c.price).sum

/-- Order line-item snapshot (models.py class OrderItem). -/
structure OrderItemRec where
  quantity : ℤ
  unit_price : ℚ
  total_price : ℚ
deriving DecidableEq

/-- Order pricing snapshot (models.py class Order, the columns written by
process_checkout), with its OrderItem children embedded (cascade
ownership). -/
structure OrderRec where
  user_id : Option ℤ
  subtotal : ℚ
  delivery_charges : ℚ
  discount : ℚ
  total_amount : ℚ
  items : List OrderItemRec
deriving DecidableEq

/-- Persistent state touched by checkout: the promotion row matching the
submitted coupon code (if any such row exists) and the order table. -/
structure CheckoutState where
  promo : Option Promotion
  orders : List OrderRec
deriving DecidableEq

/-- How a checkout request ends: order placed, coupon rejected (redirect),
empty cart (redirect), or a database error inside the order-insertion
transaction (rollback). -/
inductive CheckoutOutcome
  | placed
  | couponRejected
  | emptyCart
  | dbError
deriving DecidableEq

/-- The Order row and OrderItem children written by routes.py
process_checkout (lines 266-299): `total = subtotal + delivery_charges -
discount`, one OrderItem per cart line. -/
def checkoutOrder (cart : List CartEntry) (uid : Option ℤ) (discount : ℚ) : OrderRec :=
  { user_id := uid
    subtotal := cartTotal cart
    delivery_charges := calculate_delivery_charges (cartTotal cart)
    discount := discount
    total_amount := cartTotal cart + calculate_delivery_charges (cartTotal cart) - discount
    items := cart.map fun c => ⟨c.quantity, c.price, (c.quantity : ℚ) * c.price⟩ }

/-- routes.py `process_checkout` (lines 236-322), persistence behaviour.
`usedCoupon` is whether a non-empty coupon code was submitted; `st.promo`
is the promotion row found for that code.  `insertFails` injects a
database exception inside the try block (for example a unique violation
on order_number): the except branch rolls the session back, undoing the
order and its items but not what was already committed.  On coupon
acceptance `use_promotion()` increments used_count and commits at once,
before the order transaction begins. -/
def process_checkout (st : CheckoutState) (cart : List CartEntry) (uid : Option ℤ)
    (usedCoupon : Bool) (now : ℤ) (insertFails : Bool) : CheckoutState × CheckoutOutcome :=
  if cart.isEmpty then (st, CheckoutOutcome.emptyCart)
  else
    let subtotal := cartTotal cart
    let couponStep : Option (CheckoutState × ℚ) :=
      if usedCoupon then
        match st.promo with
        | some p =>
            if p.is_valid now && decide (p.min_order_amount ≤ subtotal) then
              some ({ st with promo := some { p with used_count := p.used_count + 1 } },
                    p.calculate_discount now subtotal)
            else none
        | none => none
      else some (st, 0)
    match couponStep with
    | none => (st, CheckoutOutcome.couponRejected)
    | some (st2, discount) =>
        if insertFails then (st2, CheckoutOutcome.dbError)
        else
          ({ st2 with orders := st2.orders ++ [checkoutOrder cart uid discount] },
            CheckoutOutcome.placed)

/-- Result of routes.py `api_validate_coupon` as seen by the client:
either one of the rejection JSON responses, or acceptance carrying the
reported discount and new_total. -/
inductive CouponCheck
  | invalid
  | accepted (discount : ℚ) (new_total : ℚ)
deriving DecidableEq

/-- routes.py `api_validate_coupon` (lines 1175-1242): look up the code,
reject when missing, invalid, or below the minimum order amount, else
report the discount and `new_total = subtotal - discount`. -/
def api_validate_coupon (promo : Option Promotion) (now : ℤ) (subtotal : ℚ) : CouponCheck :=
  match promo with
  | none => CouponCheck.invalid
  | some p =>
      if p.is_valid now = false then CouponCheck.invalid
      else if subtotal < p.min_order_amount then CouponCheck.invalid
      else CouponCheck.accepted (p.calculate_discount now subtotal)
        (subtotal - p.calculate_discount now subtotal)

/-- Order status column values (models.py Order.status). -/
inductive OrderStatus
  | pending
  | confirmed
  | preparing
  | out_for_delivery
  | delivered
  | cancelled
deriving DecidableEq

/-- Payment status column values (models.py Order.payment_status). -/
inductive PayStatus
  | pending
  | confirmed
  | failed
deriving DecidableEq

/-- The rows touched by the delivery workflow for one order: the order's
status, payment status, assignment and pricing columns, together with the
loyalty balance of the owning user (meaningful when `user_id` is set;
ids are positive, so the Python truthiness tests on the id columns are
the `Option` tests). -/
structure DeliveryWorld where
  status : OrderStatus
  payment_status : PayStatus
  delivery_person_id : Option ℤ
  user_id : Option ℤ
  total_amount : ℚ
  customer_points : ℤ
deriving DecidableEq

/-- routes.py `assign_order` (lines 964-987): a delivery actor claims an
order.  Only the assignment column is checked; on success the actor is
recorded and a confirmed order advances to preparing.  Returns the new
state and whether the claim succeeded (`False` flashes the
already-assigned warning and changes nothing). -/
def assign_order (w : DeliveryWorld) (actorId : ℤ) : DeliveryWorld × Bool :=
  match w.delivery_person_id with
  | some _ => (w, false)
  | none =>
      ({ w with
          delivery_person_id := some actorId
          status := if w.status = OrderStatus.confirmed then OrderStatus.preparing
                    else w.status }, true)

/-- routes.py `complete_delivery` (lines 1011-1042): only the assigned
delivery actor may complete; completion sets status delivered and payment
confirmed, and credits `int(total_amount // 10)` loyalty points when the
order belongs to a registered user.  No check that the order was not
already delivered. -/
def complete_delivery (w : DeliveryWorld) (actorId : ℤ) : DeliveryWorld :=
  if w.delivery_person_id ≠ some actorId then w
  else
    let w2 := { w with status := OrderStatus.delivered, payment_status := PayStatus.confirmed }
    match w.user_id with
    | some _ => { w2 with customer_points := w2.customer_points + ⌊w.total_amount / 10⌋ }
    | none => w2

/-- routes.py `update_order_status` (lines 555-579): the admin override sets
the status column directly; no loyalty points are touched. -/
def update_order_status (w : DeliveryWorld) (new_status : OrderStatus) : DeliveryWorld :=
  { w with status := new_status }

theorem delivery_charges_nonneg (s : ℚ) : 0 ≤ calculate_delivery_charges s := by
  unfold calculate_delivery_charges
  split_ifs <;> norm_num

theorem delivery_charges_pos (s : ℚ) (h : s < 200) : 0 < calculate_delivery_charges s := by
  unfold calculate_delivery_charges
  split_ifs <;> first | linarith | norm_num

theorem calculate_discount_le_subtotal (p : Promotion) (now : ℤ) (s : ℚ) (h0 : 0 ≤ s)
    (hk : p.discount_type = DiscountType.fixed ∨ p.discount_value ≤ 100) :
    p.calculate_discount now s ≤ s := by
  unfold Promotion.calculate_discount
  split_ifs with h
  · exact h0
  · cases htype : p.discount_type with
    | percentage =>
        have hv : p.discount_value ≤ 100 := by
          rcases hk with hfix | hle
          · rw [htype] at hfix; cases hfix
          · exact hle
        have hd : s * (p.discount_value / 100) ≤ s :=
          mul_le_of_le_one_right h0 ((div_le_one (by norm_num)).mpr hv)
        simp only [htype]
        cases hm : p.max_discount with
        | some m =>
            simp only []
            split_ifs
            · exact hd
            · exact le_trans (min_le_left _ _) hd
        | none => exact hd
    | fixed =>
        simp only [htype]
        exact min_le_right _ _

theorem is_valid_iff (p : Promotion) (now : ℤ) :
    p.is_valid now = true ↔
      p.is_active = true ∧ (∀ e, p.expires_at = some e → now ≤ e) ∧
      (∀ l, p.usage_limit = some l → l ≠ 0 → p.used_count < l) := by
  unfold Promotion.is_valid Promotion.is_expired Promotion.is_usage_exceeded
  cases he : p.expires_at with
  | none =>
      cases hl : p.usage_limit with
      | none => simp
      | some l => rcases eq_or_ne l 0 with h0 | h0 <;> simp [h0] <;> tauto
  | some e =>
      cases hl : p.usage_limit with
      | none => simp
      | some l => rcases eq_or_ne l 0 with h0 | h0 <;> simp [h0] <;> tauto

/-- C2: the delivery charge is 0 for subtotal at least 200, 15 on [150, 200),
and 25 below 150 (the flat band below 100 coincides with the 100-149
band, so all of s < 150 gets 25). -/
theorem C2_delivery_charge_bands (s : ℚ) :
    (200 ≤ s → calculate_delivery_charges s = 0) ∧
    (150 ≤ s → s < 200 → calculate_delivery_charges s = 15) ∧
    (s < 150 → calculate_delivery_charges s = 25) := by
  unfold calculate_delivery_charges
  refine ⟨fun h => ?_, fun h1 h2 => ?_, fun h => ?_⟩ <;>
    split_ifs <;> first | rfl | linarith

theorem C2_witness :
    ((200:ℚ) ≤ 200 ∧ calculate_delivery_charges 200 = 0) ∧
    ((150:ℚ) ≤ 150 ∧ (150:ℚ) < 200 ∧ calculate_delivery_charges 150 = 15) ∧
    ((99:ℚ) < 150 ∧ calculate_delivery_charges 99 = 25) :=
  ⟨⟨by norm_num, (C2_delivery_charge_bands 200).1 (by norm_num)⟩,
   ⟨by norm_num, by norm_num, (C2_delivery_charge_bands 150).2.1 (by norm_num) (by norm_num)⟩,
   ⟨by norm_num, (C2_delivery_charge_bands 99).2.2 (by norm_num)⟩⟩

/-- C3 fails as stated: this valid percentage promotion has its max_discount
cap set (to 0), yet the computed discount 5 is returned unclamped — the
truthiness test `if self.max_discount:` skips a zero cap. -/
theorem C3_counterexample :
    let p : Promotion := ⟨DiscountType.percentage, 10, 0, some 0, none, 0, true, none⟩
    p.is_valid 0 = true ∧ p.max_discount = some 0 ∧
    p.calculate_discount 0 50 = 5 ∧
    p.calculate_discount 0 50 ≠ min ((50:ℚ) * (10 / 100)) 0 := by
  refine ⟨by decide, rfl, ?_, ?_⟩ <;>
    norm_num [Promotion.calculate_discount, Promotion.is_valid, Promotion.is_expired,
      Promotion.is_usage_exceeded]

/-- C3 (amended): calculate_discount returns 0 when the promotion is invalid
or the subtotal is below min_order_amount; for percentage kind it is
subtotal * value/100 clamped to max_discount whenever a nonzero cap is
set (a cap of 0 is skipped like an absent one); for fixed kind it is
min(value, subtotal), never above the subtotal. -/
theorem C3_amended (p : Promotion) (now : ℤ) (s : ℚ) :
    ((p.is_valid now = false ∨ s < p.min_order_amount) → p.calculate_discount now s = 0) ∧
    (p.is_valid now = true → p.min_order_amount ≤ s →
      (p.discount_type = DiscountType.percentage →
        (∀ m, p.max_discount = some m → m ≠ 0 →
          p.calculate_discount now s = min (s * (p.discount_value / 100)) m) ∧
        ((p.max_discount = none ∨ p.max_discount = some 0) →
          p.calculate_discount now s = s * (p.discount_value / 100))) ∧
      (p.discount_type = DiscountType.fixed →
        p.calculate_discount now s = min p.discount_value s ∧
        p.calculate_discount now s ≤ s)) := by
  constructor
  · intro h
    unfold Promotion.calculate_discount
    rw [if_pos h]
  · intro hv hmin
    have hcond : ¬ (p.is_valid now = false ∨ s < p.min_order_amount) := by
      push_neg
      exact ⟨by simp [hv], hmin⟩
    refine ⟨fun htype => ⟨fun m hm hm0 => ?_, fun hcap => ?_⟩, fun htype => ⟨?_, ?_⟩⟩
    · unfold Promotion.calculate_discount
      rw [if_neg hcond]
      simp only [htype, hm]
      rw [if_neg hm0]
    · unfold Promotion.calculate_discount
      rw [if_neg hcond]
      rcases hcap with hm | hm <;> simp [htype, hm]
    · unfold Promotion.calculate_discount
      rw [if_neg hcond]
      simp only [htype]
    · unfold Promotion.calculate_discount
      rw [if_neg hcond]
      simp only [htype]
      exact min_le_right _ _

theorem C3_witness :
    let p : Promotion := ⟨DiscountType.percentage, 10, 0, some 20, none, 0, true, none⟩
    p.is_valid 0 = true ∧ p.min_order_amount ≤ 300 ∧ p.discount_type = DiscountType.percentage ∧
    p.max_discount = some 20 ∧ p.calculate_discount 0 300 = 20 := by
  refine ⟨by decide, by norm_num, rfl, rfl, ?_⟩
  have h := ((C3_amended ⟨DiscountType.percentage, 10, 0, some 20, none, 0, true, none⟩ 0
    300).2 (by decide) (by norm_num)).1 rfl |>.1 20 rfl (by norm_num)
  rw [h]
  norm_num

/-- C4 fails as stated: a usage limit of 0 with used_count equal to it (0)
should make the promotion invalid, but the truthiness test
`if self.usage_limit:` skips the usage check for a zero limit, and the
promotion is valid. -/
theorem C4_counterexample :
    let p : Promotion := ⟨DiscountType.fixed, 10, 0, none, some 0, 0, true, none⟩
    p.usage_limit = some 0 ∧ p.used_count = 0 ∧ p.is_valid 0 = true := by decide

/-- C4 (amended): is_valid holds iff the active flag is set, now is at or
before any expiry, and any nonzero usage limit strictly exceeds
used_count; a zero usage limit is skipped like an absent one.  Every
promotion whose used_count equals its nonzero usage_limit is invalid
regardless of the active flag and expiry. -/
theorem C4_amended (p : Promotion) (now : ℤ) :
    (p.is_valid now = true ↔
      p.is_active = true ∧ (∀ e, p.expires_at = some e → now ≤ e) ∧
      (∀ l, p.usage_limit = some l → l ≠ 0 → p.used_count < l)) ∧
    (∀ l, p.usage_limit = some l → l ≠ 0 → p.used_count = l → p.is_valid now = false) := by
  refine ⟨is_valid_iff p now, fun l hl hne heq => ?_⟩
  cases hv : p.is_valid now
  · rfl
  · have h := ((is_valid_iff p now).mp hv).2.2 l hl hne
    omega

theorem C4_witness :
    let p : Promotion := ⟨DiscountType.fixed, 10, 0, none, some 3, 3, true, none⟩
    p.usage_limit = some 3 ∧ (3:ℤ) ≠ 0 ∧ p.used_count = 3 ∧ p.is_valid 0 = false :=
  ⟨rfl, by decide, rfl,
    (C4_amended ⟨DiscountType.fixed, 10, 0, none, some 3, 3, true, none⟩ 0).2 3 rfl
      (by decide) rfl⟩

theorem get_tier_fst (u : User) :
    (u.get_loyalty_tier_info).1 = ⟨u.loyalty_points, currentTier u.loyalty_points⟩ := by
  unfold User.get_loyalty_tier_info
  by_cases h : u.loyalty_tier = currentTier u.loyalty_points
  · simp only [h, ne_eq, not_true_eq_false, if_false]
    cases u
    simp_all
  · simp [h]

theorem get_tier_snd (u : User) :
    (u.get_loyalty_tier_info).2 = tierInfoOf (currentTier u.loyalty_points) := rfl

theorem currentTier_bands (b : ℤ) (h0 : 0 ≤ b) :
    (b ≤ 999 → currentTier b = Tier.bronze) ∧
    (1000 ≤ b → b ≤ 2499 → currentTier b = Tier.silver) ∧
    (2500 ≤ b → b ≤ 4999 → currentTier b = Tier.gold) ∧
    (5000 ≤ b → currentTier b = Tier.platinum) := by
  unfold currentTier tierTable inBand
  refine ⟨fun h1 => ?_, fun h1 h2 => ?_, fun h1 h2 => ?_, fun h1 => ?_⟩
  · simp [List.find?, h0, h1]
  · have n1 : ¬ b ≤ 999 := by omega
    simp [List.find?, h0, h1, h2, n1]
  · have n1 : ¬ b ≤ 999 := by omega
    have n2 : ¬ b ≤ 2499 := by omega
    have m2 : (1000:ℤ) ≤ b := by omega
    simp [List.find?, h0, h1, h2, n1, n2, m2]
  · have n1 : ¬ b ≤ 999 := by omega
    have n2 : ¬ b ≤ 2499 := by omega
    have n3 : ¬ b ≤ 4999 := by omega
    have m2 : (1000:ℤ) ≤ b := by omega
    have m3 : (2500:ℤ) ≤ b := by omega
    simp [List.find?, h0, h1, n1, n2, n3, m2, m3]

/-- C7: tier bands with inclusive lower bounds and their conversion rates;
the user record handed back by get_loyalty_tier_info carries the
recomputed tier label (overwritten whenever the stored one differs)
and an unchanged point balance. -/
theorem C7_loyalty_tiers (u : User) (h0 : 0 ≤ u.loyalty_points) :
    (u.get_loyalty_tier_info).1 = ⟨u.loyalty_points, currentTier u.loyalty_points⟩ ∧
    (u.get_loyalty_tier_info).2 = tierInfoOf (currentTier u.loyalty_points) ∧
    (u.loyalty_points ≤ 999 → currentTier u.loyalty_points = Tier.bronze ∧
      (u.get_loyalty_tier_info).2.conversion_rate = 5) ∧
    (1000 ≤ u.loyalty_points → u.loyalty_points ≤ 2499 →
      currentTier u.loyalty_points = Tier.silver ∧
      (u.get_loyalty_tier_info).2.conversion_rate = 4) ∧
    (2500 ≤ u.loyalty_points → u.loyalty_points ≤ 4999 →
      currentTier u.loyalty_points = Tier.gold ∧
      (u.get_loyalty_tier_info).2.conversion_rate = 3) ∧
    (5000 ≤ u.loyalty_points → currentTier u.loyalty_points = Tier.platinum ∧
      (u.get_loyalty_tier_info).2.conversion_rate = 2) := by
  obtain ⟨hb1, hb2, hb3, hb4⟩ := currentTier_bands u.loyalty_points h0
  refine ⟨get_tier_fst u, get_tier_snd u, fun h => ⟨hb1 h, ?_⟩,
    fun h1 h2 => ⟨hb2 h1 h2, ?_⟩, fun h1 h2 => ⟨hb3 h1 h2, ?_⟩, fun h => ⟨hb4 h, ?_⟩⟩
  · rw [get_tier_snd, hb1 h]; decide
  · rw [get_tier_snd, hb2 h1 h2]; decide
  · rw [get_tier_snd, hb3 h1 h2]; decide
  · rw [get_tier_snd, hb4 h]; decide

theorem C7_witness :
    (0:ℤ) ≤ (1000:ℤ) ∧ (1000:ℤ) ≤ 2499 ∧
    (User.get_loyalty_tier_info ⟨1000, Tier.bronze⟩).1 = ⟨1000, Tier.silver⟩ ∧
    (User.get_loyalty_tier_info ⟨1000, Tier.bronze⟩).2.conversion_rate = 4 := by
  have h := C7_loyalty_tiers ⟨1000, Tier.bronze⟩ (by decide)
  have hs := (h.2.2.2.1 (by decide) (by decide))
  exact ⟨by decide, by decide, by rw [h.1, hs.1], hs.2⟩

/-- C6 fails as stated: with balance 20 and requested points 50 (more than
the balance), redeem_points reports the below-minimum failure, not
InsufficientPoints — the minimum check runs first. -/
theorem C6_counterexample :
    let u : User := ⟨20, Tier.bronze⟩
    u.loyalty_points < 50 ∧
    u.redeem_points 50 = RedeemResult.failure RedeemError.BelowMinimum ∧
    u.redeem_points 50 ≠ RedeemResult.failure RedeemError.InsufficientPoints := by decide

/-- C6 (amended): redeem fails with BelowMinimum whenever fewer than 100
points are requested (this check runs first); otherwise it fails with
InsufficientPoints when the request exceeds the balance; otherwise it
deducts the points and returns floor(n / conversion_rate) at the rate of
the tier computed (and stored) from the balance before the deduction. -/
theorem C6_amended (u : User) (n : ℤ) :
    (n < 100 → u.redeem_points n = RedeemResult.failure RedeemError.BelowMinimum) ∧
    (100 ≤ n → u.loyalty_points < n →
      u.redeem_points n = RedeemResult.failure RedeemError.InsufficientPoints) ∧
    (100 ≤ n → n ≤ u.loyalty_points →
      u.redeem_points n = RedeemResult.success
        ⟨u.loyalty_points - n, currentTier u.loyalty_points⟩
        (Int.fdiv n (tierInfoOf (currentTier u.loyalty_points)).conversion_rate)) := by
  refine ⟨fun h => ?_, fun h1 h2 => ?_, fun h1 h2 => ?_⟩
  · unfold User.redeem_points
    rw [if_pos h]
  · unfold User.redeem_points
    rw [if_neg (by omega), if_pos h2]
  · unfold User.redeem_points
    rw [if_neg (by omega), if_neg (by omega)]
    simp only [get_tier_fst, get_tier_snd]

theorem C6_witness :
    (100:ℤ) ≤ 100 ∧ (100:ℤ) ≤ 250 ∧
    User.redeem_points ⟨250, Tier.bronze⟩ 100 = RedeemResult.success ⟨150, Tier.bronze⟩ 20 := by
  refine ⟨by decide, by decide, ?_⟩
  have h := (C6_amended ⟨250, Tier.bronze⟩ 100).2.2 (by decide) (by decide)
  rw [h]
  decide


/-- C5 fails as stated: a second completion call by the assigned delivery
person credits the points again (the route never checks that the order
is not already delivered), and the admin status update to delivered
credits nothing. -/
theorem C5_counterexample :
    let w : DeliveryWorld :=
      ⟨OrderStatus.out_for_delivery, PayStatus.pending, some 1, some 1, 250, 0⟩
    (complete_delivery w 1).status = OrderStatus.delivered ∧
    (complete_delivery w 1).customer_points = 25 ∧
    (complete_delivery (complete_delivery w 1) 1).customer_points = 50 ∧
    (update_order_status w OrderStatus.delivered).status = OrderStatus.delivered ∧
    (update_order_status w OrderStatus.delivered).customer_points = 0 := by
  norm_num [complete_delivery, update_order_status]

/-- C5 (amended): each successful delivery-completion call by the assigned
delivery person credits floor(total_amount / 10) points to the owning
registered user and sets the status to delivered; guest orders never
accrue points; the admin status update never credits points — so the
points are credited once per completion call, not exactly once per
order (a repeat call credits again, and the admin path credits zero). -/
theorem C5_amended (w g : DeliveryWorld) (a b : ℤ)
    (ha : w.delivery_person_id = some a) (hu : w.user_id ≠ none) (hg : g.user_id = none) :
    (complete_delivery w a).status = OrderStatus.delivered ∧
    (complete_delivery w a).customer_points = w.customer_points + ⌊w.total_amount / 10⌋ ∧
    (complete_delivery g b).customer_points = g.customer_points ∧
    (∀ s, (update_order_status w s).customer_points = w.customer_points) := by
  refine ⟨?_, ?_, ?_, fun s => rfl⟩
  · unfold complete_delivery
    rw [if_neg (by simp [ha])]
    cases hid : w.user_id with
    | none => exact absurd hid hu
    | some v => simp
  · unfold complete_delivery
    rw [if_neg (by simp [ha])]
    cases hid : w.user_id with
    | none => exact absurd hid hu
    | some v => simp
  · unfold complete_delivery
    split_ifs
    · rfl
    · rw [hg]

theorem C5_witness :
    let w : DeliveryWorld :=
      ⟨OrderStatus.out_for_delivery, PayStatus.pending, some 1, some 1, 250, 0⟩
    let g : DeliveryWorld :=
      ⟨OrderStatus.out_for_delivery, PayStatus.pending, some 2, none, 250, 0⟩
    w.delivery_person_id = some 1 ∧ w.user_id ≠ none ∧ g.user_id = none ∧
    (complete_delivery w 1).customer_points = 0 + ⌊(250:ℚ) / 10⌋ ∧
    (complete_delivery g 2).customer_points = 0 :=
  ⟨rfl, by decide, rfl,
    (C5_amended ⟨OrderStatus.out_for_delivery, PayStatus.pending, some 1, some 1, 250, 0⟩
      ⟨OrderStatus.out_for_delivery, PayStatus.pending, some 2, none, 250, 0⟩ 1 2
      rfl (by decide) rfl).2.1,
    (C5_amended ⟨OrderStatus.out_for_delivery, PayStatus.pending, some 1, some 1, 250, 0⟩
      ⟨OrderStatus.out_for_delivery, PayStatus.pending, some 2, none, 250, 0⟩ 1 2
      rfl (by decide) rfl).2.2.1⟩

/-- C8 fails as stated: an unassigned order whose status is pending (neither
confirmed nor preparing) is successfully claimed — the route only checks
the assignment column, not the status. -/
theorem C8_counterexample :
    let w : DeliveryWorld := ⟨OrderStatus.pending, PayStatus.pending, none, some 1, 250, 0⟩
    (assign_order w 7).2 = true ∧
    (assign_order w 7).1.delivery_person_id = some 7 ∧
    w.status ≠ OrderStatus.confirmed ∧ w.status ≠ OrderStatus.preparing ∧
    (assign_order w 7).1.status = OrderStatus.pending := by decide

/-- C8 (amended): an assignment attempt succeeds exactly when the order is
unassigned, whatever its status; on success it sets delivery_person_id
to the actor and, if the status was confirmed, advances it to preparing
(any other status is left as is); if the order is already assigned the
attempt is reported as a non-fatal failure and the order is unchanged. -/
theorem C8_amended (w : DeliveryWorld) (a b : ℤ) :
    ((assign_order w a).2 = true ↔ w.delivery_person_id = none) ∧
    (w.delivery_person_id = none →
      (assign_order w a).1 =
        { w with
            delivery_person_id := some a
            status := if w.status = OrderStatus.confirmed then OrderStatus.preparing
                      else w.status }) ∧
    (w.delivery_person_id = some b → assign_order w a = (w, false)) := by
  rcases h : w.delivery_person_id with _ | c <;> simp [assign_order, h]

theorem C8_witness :
    let w : DeliveryWorld := ⟨OrderStatus.confirmed, PayStatus.pending, none, none, 100, 0⟩
    w.delivery_person_id = none ∧
    (assign_order w 3).1 =
      { w with
          delivery_person_id := some (3:ℤ)
          status := if w.status = OrderStatus.confirmed then OrderStatus.preparing
                    else w.status } :=
  ⟨rfl, (C8_amended ⟨OrderStatus.confirmed, PayStatus.pending, none, none, 100, 0⟩ 3 0).2.1 rfl⟩


theorem checkout_eq_empty (st : CheckoutState) (cart : List CartEntry) (uid : Option ℤ)
    (usedCoupon : Bool) (now : ℤ) (fail : Bool) (hc : cart.isEmpty = true) :
    process_checkout st cart uid usedCoupon now fail = (st, CheckoutOutcome.emptyCart) := by
  unfold process_checkout
  rw [if_pos hc]

theorem checkout_eq_nocoupon (st : CheckoutState) (cart : List CartEntry) (uid : Option ℤ)
    (now : ℤ) (fail : Bool) (hc : cart.isEmpty = false) :
    process_checkout st cart uid false now fail =
      if fail then (st, CheckoutOutcome.dbError)
      else ({ st with orders := st.orders ++ [checkoutOrder cart uid 0] },
        CheckoutOutcome.placed) := by
  unfold process_checkout
  rw [if_neg (by simp [hc])]
  cases fail <;> simp

theorem checkout_eq_nopromo (st : CheckoutState) (cart : List CartEntry) (uid : Option ℤ)
    (now : ℤ) (fail : Bool) (hc : cart.isEmpty = false) (hp : st.promo = none) :
    process_checkout st cart uid true now fail = (st, CheckoutOutcome.couponRejected) := by
  unfold process_checkout
  rw [if_neg (by simp [hc]), hp]
  simp

theorem checkout_eq_badcoupon (st : CheckoutState) (cart : List CartEntry) (uid : Option ℤ)
    (now : ℤ) (fail : Bool) (p : Promotion) (hc : cart.isEmpty = false) (hp : st.promo = some p)
    (hv : (p.is_valid now && decide (p.min_order_amount ≤ cartTotal cart)) = false) :
    process_checkout st cart uid true now fail = (st, CheckoutOutcome.couponRejected) := by
  unfold process_checkout
  rw [if_neg (by simp [hc]), hp]
  simp [hv]

theorem checkout_eq_coupon (st : CheckoutState) (cart : List CartEntry) (uid : Option ℤ)
    (now : ℤ) (fail : Bool) (p : Promotion) (hc : cart.isEmpty = false) (hp : st.promo = some p)
    (hv : (p.is_valid now && decide (p.min_order_amount ≤ cartTotal cart)) = true) :
    process_checkout st cart uid true now fail =
      if fail then
        ({ st with promo := some { p with used_count := p.used_count + 1 } },
          CheckoutOutcome.dbError)
      else
        ({ st with promo := some { p with used_count := p.used_count + 1 }
                   orders := st.orders ++
                     [checkoutOrder cart uid (p.calculate_discount now (cartTotal cart))] },
          CheckoutOutcome.placed) := by
  unfold process_checkout
  rw [if_neg (by simp [hc]), hp]
  simp only [hv, if_true]


/-- C9 fails as stated: with a valid coupon and a database failure during
order insertion, the rollback leaves no order behind, but the coupon's
used_count increment (committed by use_promotion before the order
transaction) is retained — the state is not unchanged on error. -/
theorem C9_counterexample :
    let p : Promotion := ⟨DiscountType.fixed, 10, 0, none, none, 0, true, none⟩
    let st : CheckoutState := ⟨some p, []⟩
    let r := process_checkout st [⟨100, 1⟩] none true 0 true
    r.2 = CheckoutOutcome.dbError ∧ r.1.orders = [] ∧
    r.1.promo = some ⟨DiscountType.fixed, 10, 0, none, none, 1, true, none⟩ := by
  norm_num [process_checkout, cartTotal, Promotion.is_valid, Promotion.is_expired,
    Promotion.is_usage_exceeded, Promotion.calculate_discount]

/-- C9 (amended): no order (with its items) is ever persisted by a failing
checkout, and a rejected coupon or empty cart leaves the state fully
unchanged; but once a coupon is accepted its used_count increment is
committed immediately, so it persists exactly when checkout gets past
the coupon step — on success (incremented by exactly one) and equally
on a database error during order insertion. -/
theorem C9_amended (st : CheckoutState) (cart : List CartEntry) (uid : Option ℤ)
    (usedCoupon : Bool) (now : ℤ) (fail : Bool) :
    ((process_checkout st cart uid usedCoupon now fail).2 ≠ CheckoutOutcome.placed →
      (process_checkout st cart uid usedCoupon now fail).1.orders = st.orders) ∧
    ((process_checkout st cart uid usedCoupon now fail).2 = CheckoutOutcome.couponRejected ∨
     (process_checkout st cart uid usedCoupon now fail).2 = CheckoutOutcome.emptyCart →
      (process_checkout st cart uid usedCoupon now fail).1 = st) ∧
    (∀ p, usedCoupon = true → st.promo = some p →
      ((process_checkout st cart uid usedCoupon now fail).2 = CheckoutOutcome.placed ∨
       (process_checkout st cart uid usedCoupon now fail).2 = CheckoutOutcome.dbError) →
      (process_checkout st cart uid usedCoupon now fail).1.promo =
        some { p with used_count := p.used_count + 1 }) := by
  cases hc : cart.isEmpty with
  | true =>
      rw [checkout_eq_empty st cart uid usedCoupon now fail hc]
      exact ⟨fun _ => rfl, fun _ => rfl,
        fun p hu hp hout => by rcases hout with h | h <;> simp at h⟩
  | false =>
      cases usedCoupon with
      | false =>
          rw [checkout_eq_nocoupon st cart uid now fail hc]
          cases fail with
          | true =>
              exact ⟨fun _ => rfl, fun hout => by rcases hout with h | h <;> simp at h,
                fun p hu hp => by simp at hu⟩
          | false =>
              exact ⟨fun hne => absurd rfl hne,
                fun hout => by rcases hout with h | h <;> simp at h,
                fun p hu hp => by simp at hu⟩
      | true =>
          cases hp : st.promo with
          | none =>
              rw [checkout_eq_nopromo st cart uid now fail hc hp]
              refine ⟨fun _ => rfl, fun _ => rfl, fun p hu hp2 hout => ?_⟩
              cases hp2
          | some p =>
              cases hv : (p.is_valid now && decide (p.min_order_amount ≤ cartTotal cart)) with
              | false =>
                  rw [checkout_eq_badcoupon st cart uid now fail p hc hp hv]
                  refine ⟨fun _ => rfl, fun _ => rfl, fun q hu hq hout => ?_⟩
                  rcases hout with h | h <;> simp at h
              | true =>
                  rw [checkout_eq_coupon st cart uid now fail p hc hp hv]
                  cases fail with
                  | true =>
                      refine ⟨fun _ => rfl,
                        fun hout => by rcases hout with h | h <;> simp at h,
                        fun q hu hq hout => ?_⟩
                      injection hq with hq
                      rw [← hq]
                      rfl
                  | false =>
                      refine ⟨fun hne => absurd rfl hne,
                        fun hout => by rcases hout with h | h <;> simp at h,
                        fun q hu hq hout => ?_⟩
                      injection hq with hq
                      rw [← hq]
                      rfl

theorem C9_witness :
    let p : Promotion := ⟨DiscountType.fixed, 10, 0, none, none, 0, true, none⟩
    let st : CheckoutState := ⟨some p, []⟩
    (process_checkout st [⟨100, 1⟩] none true 0 false).2 = CheckoutOutcome.placed ∧
    (process_checkout st [⟨100, 1⟩] none true 0 false).1.promo =
      some ⟨DiscountType.fixed, 10, 0, none, none, 1, true, none⟩ := by
  have hpl : (process_checkout (⟨some ⟨DiscountType.fixed, 10, 0, none, none, 0, true, none⟩,
      []⟩ : CheckoutState) [⟨100, 1⟩] none true 0 false).2 = CheckoutOutcome.placed := by
    norm_num [process_checkout, cartTotal, Promotion.is_valid, Promotion.is_expired,
      Promotion.is_usage_exceeded]
  refine ⟨hpl, ?_⟩
  have h := (C9_amended ⟨some ⟨DiscountType.fixed, 10, 0, none, none, 0, true, none⟩, []⟩
    [⟨100, 1⟩] none true 0 false).2.2 ⟨DiscountType.fixed, 10, 0, none, none, 0, true, none⟩
    rfl rfl (Or.inl hpl)
  exact h

/-- C1 fails as stated: an admin-creatable percentage promotion with value
200 (no cap) yields, at cart subtotal 100, an order whose discount 200
exceeds the subtotal and whose total 100 + 25 - 200 = -75 is negative;
the equation total = subtotal + delivery - discount still holds. -/
theorem C1_counterexample :
    let p : Promotion := ⟨DiscountType.percentage, 200, 0, none, none, 0, true, none⟩
    let st : CheckoutState := ⟨some p, []⟩
    let r := process_checkout st [⟨100, 1⟩] (some 1) true 0 false
    r.2 = CheckoutOutcome.placed ∧
    (r.1.orders.map OrderRec.subtotal) = [100] ∧
    (r.1.orders.map OrderRec.discount) = [200] ∧
    (r.1.orders.map OrderRec.total_amount) = [-75] ∧
    ¬ ((200:ℚ) ≤ 100) ∧ (-75:ℚ) < 0 := by
  norm_num [process_checkout, cartTotal, checkoutOrder, calculate_delivery_charges,
    Promotion.calculate_discount, Promotion.is_valid, Promotion.is_expired,
    Promotion.is_usage_exceeded]

/-- C1 (amended): every order created by checkout has total_amount =
subtotal + delivery_charges - discount exactly; when the cart subtotal
is nonnegative and the coupon used (if any) is fixed-kind or
percentage-kind with value at most 100, the discount is at most the
subtotal and total_amount is at least 0 (an uncapped percentage value
above 100 can violate both bounds). -/
theorem C1_amended (st : CheckoutState) (cart : List CartEntry) (uid : Option ℤ)
    (usedCoupon : Bool) (now : ℤ) (fail : Bool)
    (h0 : 0 ≤ cartTotal cart)
    (hk : usedCoupon = true → ∀ p, st.promo = some p →
      p.discount_type = DiscountType.fixed ∨ p.discount_value ≤ 100)
    (hpl : (process_checkout st cart uid usedCoupon now fail).2 = CheckoutOutcome.placed) :
    ∃ o, (process_checkout st cart uid usedCoupon now fail).1.orders = st.orders ++ [o] ∧
      o.subtotal = cartTotal cart ∧
      o.delivery_charges = calculate_delivery_charges (cartTotal cart) ∧
      o.total_amount = o.subtotal + o.delivery_charges - o.discount ∧
      o.discount ≤ o.subtotal ∧ 0 ≤ o.total_amount := by
  cases hc : cart.isEmpty with
  | true =>
      rw [checkout_eq_empty st cart uid usedCoupon now fail hc] at hpl
      simp at hpl
  | false =>
      cases usedCoupon with
      | false =>
          rw [checkout_eq_nocoupon st cart uid now fail hc] at hpl ⊢
          cases fail with
          | true => simp at hpl
          | false =>
              refine ⟨checkoutOrder cart uid 0, by simp, rfl, rfl, rfl, h0, ?_⟩
              have hd := delivery_charges_nonneg (cartTotal cart)
              show (0:ℚ) ≤ cartTotal cart + calculate_delivery_charges (cartTotal cart) - 0
              linarith
      | true =>
          cases hp : st.promo with
          | none =>
              rw [checkout_eq_nopromo st cart uid now fail hc hp] at hpl
              simp at hpl
          | some p =>
              cases hv : (p.is_valid now && decide (p.min_order_amount ≤ cartTotal cart)) with
              | false =>
                  rw [checkout_eq_badcoupon st cart uid now fail p hc hp hv] at hpl
                  simp at hpl
              | true =>
                  rw [checkout_eq_coupon st cart uid now fail p hc hp hv] at hpl ⊢
                  cases fail with
                  | true => simp at hpl
                  | false =>
                      have hdle : p.calculate_discount now (cartTotal cart) ≤ cartTotal cart :=
                        calculate_discount_le_subtotal p now (cartTotal cart) h0 (hk rfl p hp)
                      have hd := delivery_charges_nonneg (cartTotal cart)
                      refine ⟨checkoutOrder cart uid (p.calculate_discount now (cartTotal cart)),
                        by simp, rfl, rfl, rfl, hdle, ?_⟩
                      show (0:ℚ) ≤ cartTotal cart + calculate_delivery_charges (cartTotal cart) -
                        p.calculate_discount now (cartTotal cart)
                      linarith

theorem C1_witness :
    (0:ℚ) ≤ cartTotal [⟨100, 2⟩] ∧
    (process_checkout ⟨none, []⟩ [⟨100, 2⟩] none false 0 false).2 = CheckoutOutcome.placed ∧
    ∃ o, (process_checkout ⟨none, []⟩ [⟨100, 2⟩] none false 0 false).1.orders
          = ([] : List OrderRec) ++ [o] ∧
      o.subtotal = cartTotal [⟨100, 2⟩] ∧
      o.delivery_charges = calculate_delivery_charges (cartTotal [⟨100, 2⟩]) ∧
      o.total_amount = o.subtotal + o.delivery_charges - o.discount ∧
      o.discount ≤ o.subtotal ∧ 0 ≤ o.total_amount := by
  have hpl : (process_checkout (⟨none, []⟩ : CheckoutState) [⟨100, 2⟩] none false 0
      false).2 = CheckoutOutcome.placed := by
    rw [checkout_eq_nocoupon ⟨none, []⟩ [⟨100, 2⟩] none 0 false rfl]
    rfl
  exact ⟨by norm_num [cartTotal], hpl,
    C1_amended ⟨none, []⟩ [⟨100, 2⟩] none false 0 false (by norm_num [cartTotal])
      (fun hu => by simp at hu) hpl⟩

/-- C10: an accepted coupon-validation response reports new_total =
subtotal - discount with no delivery charge; for any cart subtotal
below 200 the checkout total for the same coupon and subtotal adds a
positive delivery charge, so new_total is strictly less. -/
theorem C10_new_total_lt_checkout (st : CheckoutState) (p : Promotion) (cart : List CartEntry)
    (uid : Option ℤ) (now : ℤ) (d nt : ℚ)
    (hp : st.promo = some p)
    (hacc : api_validate_coupon st.promo now (cartTotal cart) = CouponCheck.accepted d nt)
    (hs : cartTotal cart < 200) (hne : cart.isEmpty = false) :
    nt = cartTotal cart - d ∧
    ∃ o, (process_checkout st cart uid true now false).1.orders = st.orders ++ [o] ∧
      o.total_amount = cartTotal cart + calculate_delivery_charges (cartTotal cart) - d ∧
      nt < o.total_amount := by
  rw [hp] at hacc
  simp only [api_validate_coupon] at hacc
  by_cases hv : p.is_valid now = false
  · rw [if_pos hv] at hacc
    cases hacc
  · rw [if_neg hv] at hacc
    by_cases hmin : cartTotal cart < p.min_order_amount
    · rw [if_pos hmin] at hacc
      cases hacc
    · rw [if_neg hmin] at hacc
      injection hacc with hd hnt
      have hvt : p.is_valid now = true := by simpa using hv
      have hv2 : (p.is_valid now && decide (p.min_order_amount ≤ cartTotal cart)) = true := by
        rw [hvt]
        simpa using not_lt.mp hmin
      have heq := checkout_eq_coupon st cart uid now false p hne hp hv2
      have hdc := delivery_charges_pos (cartTotal cart) hs
      refine ⟨by rw [← hnt, hd], checkoutOrder cart uid (p.calculate_discount now (cartTotal cart)),
        ?_, ?_, ?_⟩
      · rw [heq]
        rfl
      · show cartTotal cart + calculate_delivery_charges (cartTotal cart) -
          p.calculate_discount now (cartTotal cart) =
          cartTotal cart + calculate_delivery_charges (cartTotal cart) - d
        rw [hd]
      · show nt < cartTotal cart + calculate_delivery_charges (cartTotal cart) -
          p.calculate_discount now (cartTotal cart)
        rw [← hnt, hd]
        linarith

theorem C10_witness :
    let p : Promotion := ⟨DiscountType.fixed, 10, 0, none, none, 0, true, none⟩
    let st : CheckoutState := ⟨some p, []⟩
    api_validate_coupon st.promo 0 (cartTotal [⟨100, 1⟩]) = CouponCheck.accepted 10 90 ∧
    cartTotal [⟨100, 1⟩] < 200 ∧
    (90:ℚ) = cartTotal [⟨100, 1⟩] - 10 ∧
    ∃ o, (process_checkout st [⟨100, 1⟩] none true 0 false).1.orders = [] ++ [o] ∧
      o.total_amount = cartTotal [⟨100, 1⟩] +
        calculate_delivery_charges (cartTotal [⟨100, 1⟩]) - 10 ∧
      (90:ℚ) < o.total_amount := by
  have hacc : api_validate_coupon
      ((⟨some ⟨DiscountType.fixed, 10, 0, none, none, 0, true, none⟩, []⟩ : CheckoutState)).promo
      0 (cartTotal [⟨100, 1⟩]) = CouponCheck.accepted 10 90 := by
    norm_num [api_validate_coupon, cartTotal, Promotion.is_valid, Promotion.is_expired,
      Promotion.is_usage_exceeded, Promotion.calculate_discount]
  refine ⟨hacc, by norm_num [cartTotal], ?_, ?_⟩
  · norm_num [cartTotal]
  · exact (C10_new_total_lt_checkout ⟨some ⟨DiscountType.fixed, 10, 0, none, none, 0, true, none⟩, []⟩
      ⟨DiscountType.fixed, 10, 0, none, none, 0, true, none⟩ [⟨100, 1⟩] none 0 10 90 rfl hacc
      (by norm_num [cartTotal]) rfl).2

end BiryaniClub
